import Mathlib

/-
Verification development for the multi-provider OAuth2 authorization-code
broker of the AI-Content-Generation repository.

The repository ships the React front end (SocialMediaConnect.tsx, which
bundles the SocialMediaConnect and Profile components) together with
documentation of the FastAPI back end (OAUTH_SETUP.md,
SOCIAL_MEDIA_OAUTH_SUMMARY.md, TWITTER_FINAL_CHECKLIST.md, the server-log
analyses and the database schema). The back-end router itself
(backend/app/routers/oauth.py) is not part of the source tree, so the
broker operations below are modelled from the specification, with the
observable wire shapes (query-parameter and JSON field names) taken from
the in-repo evidence: the Profile component reads the callback redirect
parameters connection, platform, username and error; the connect response
carries auth_url, state or status; the connections listing carries
platform, platform_username and created_at.

The front-end components are embedded directly from the TypeScript source.
-/

namespace OAuthApp

/-- A query string or JSON object, as an ordered association list from
parameter names to string values. -/
abbrev Obj := List (String × String)

/-- Value of a key in an object, if present. -/
def getKey (o : Obj) (k : String) : Option String :=
  (o.find? (fun p => p.fst == k)).map Prod.snd

/-- Whether a key is present in an object. -/
def hasKey (o : Obj) (k : String) : Bool :=
  (getKey o k).isSome

/-- An OAuthState record: opaque random token, owning user, provider key,
creation and expiry time (seconds). Mirrors the oauth_states ephemeral
store described by the specification. -/
structure OAuthState where
  token : String
  userId : Nat
  provider : String
  createdAt : Nat
  expiresAt : Nat
deriving Repr, DecidableEq

/-- A PlatformConnection record, mirroring the platform_connections table
of the database schema: user_id, platform, access_token, refresh_token,
expires_at, platform_user_id, platform_username, is_active, created_at,
updated_at. -/
structure PlatformConnection where
  userId : Nat
  platform : String
  accessToken : String
  refreshToken : Option String
  expiresAt : Option Nat
  platformUserId : String
  platformUsername : String
  isActive : Bool
  createdAt : Nat
  updatedAt : Nat
deriving Repr, DecidableEq

/-- The broker-owned storage: the ephemeral state store and the durable
connection store. -/
structure BrokerState where
  states : List OAuthState
  conns : List PlatformConnection
deriving Repr, DecidableEq

/-- Token payload normalized from a provider response: access token,
optional refresh token, optional absolute expiry. -/
structure TokenPayload where
  accessToken : String
  refreshToken : Option String
  expiresAt : Option Nat
deriving Repr, DecidableEq

/-- Provider-side identity resolved from the profile endpoint. -/
structure ProviderProfile where
  id : String
  username : String
deriving Repr, DecidableEq

/-- Error classes produced by the token exchange client, from the error
taxonomy of the specification. -/
inductive ExchangeError where
  | configurationError
  | codeExpiredOrReused
  | networkOrTransient
deriving Repr, DecidableEq

/-- Result of a single code-for-token exchange attempt. -/
inductive ExchangeResult where
  | success (tokens : TokenPayload) (profile : ProviderProfile)
  | failure (e : ExchangeError)
deriving Repr, DecidableEq

/-- Whether an exchange result is a failure. -/
def ExchangeResult.isFailure : ExchangeResult → Bool
  | .failure _ => true
  | .success _ _ => false

/-- Coarse error code carried in a redirect for an exchange failure. -/
def errCode : ExchangeError → String
  | .configurationError => "configuration_error"
  | .codeExpiredOrReused => "code_expired_or_reused"
  | .networkOrTransient => "network_error"

/-- Static per-provider configuration: authorize endpoint, client id,
redirect URI, scope list and scope joiner. -/
structure PlatformConfig where
  key : String
  authorizeEndpoint : String
  clientId : String
  redirectUri : String
  scopes : List String
  scopeJoiner : String
deriving Repr, DecidableEq

/-- Modelled from the spec: the Platform Registry table, one entry per
supported provider (twitter, linkedin, facebook, instagram, email per
SOCIAL_MEDIA_OAUTH_SUMMARY.md), with endpoint and scope data from the
server-log analyses; the back-end module holding it is not in the source
tree. -/
def registryTable : List (String × PlatformConfig) :=
  [ ("twitter",
     { key := "twitter"
       authorizeEndpoint := "https://twitter.com/i/oauth2/authorize"
       clientId := "TWITTER_CLIENT_ID"
       redirectUri := "http://localhost:8000/oauth/twitter/callback"
       scopes := ["tweet.read", "tweet.write", "users.read", "offline.access"]
       scopeJoiner := " " }),
    ("linkedin",
     { key := "linkedin"
       authorizeEndpoint := "https://www.linkedin.com/oauth/v2/authorization"
       clientId := "LINKEDIN_CLIENT_ID"
       redirectUri := "http://localhost:8000/oauth/linkedin/callback"
       scopes := ["openid", "profile", "email", "w_member_social"]
       scopeJoiner := " " }),
    ("facebook",
     { key := "facebook"
       authorizeEndpoint := "https://www.facebook.com/v18.0/dialog/oauth"
       clientId := "FACEBOOK_CLIENT_ID"
       redirectUri := "http://localhost:8000/oauth/facebook/callback"
       scopes := ["pages_manage_posts", "pages_read_engagement"]
       scopeJoiner := "," }),
    ("instagram",
     { key := "instagram"
       authorizeEndpoint := "https://api.instagram.com/oauth/authorize"
       clientId := "INSTAGRAM_CLIENT_ID"
       redirectUri := "http://localhost:8000/oauth/instagram/callback"
       scopes := ["instagram_basic", "instagram_content_publish"]
       scopeJoiner := "," }),
    ("email",
     { key := "email"
       authorizeEndpoint := "https://accounts.google.com/o/oauth2/v2/auth"
       clientId := "EMAIL_CLIENT_ID"
       redirectUri := "http://localhost:8000/oauth/email/callback"
       scopes := ["send", "compose"]
       scopeJoiner := " " }) ]

/-- Registry lookup over the fixed table. -/
def registry (k : String) : Option PlatformConfig :=
  registryTable.lookup k

/-- Modelled from the spec: atomic delete-and-return consumption of a
state record (callback step 4 and the concurrency section); the back-end
handler holding it is not in the source tree. The matching record is
removed from the store; it is returned only when the current time is
still before its expiry, so an expired record is treated as not found. -/
def consumeState (now : Nat) (token : String) (states : List OAuthState) :
    Option OAuthState × List OAuthState :=
  match states.find? (fun s => s.token == token) with
  | none => (none, states)
  | some s =>
      (if now < s.expiresAt then some s else none,
       states.filter (fun r => !(r.token == token)))

/-- Whether a connection record belongs to the given user and platform. -/
def pairMatch (user : Nat) (platform : String) (c : PlatformConnection) : Bool :=
  c.userId == user && c.platform == platform

/-- The fresh active record an upsert writes for a pair. -/
def mkConnection (user : Nat) (platform : String) (tk : TokenPayload)
    (pf : ProviderProfile) (now : Nat) : PlatformConnection :=
  { userId := user
    platform := platform
    accessToken := tk.accessToken
    refreshToken := tk.refreshToken
    expiresAt := tk.expiresAt
    platformUserId := pf.id
    platformUsername := pf.username
    isActive := true
    createdAt := now
    updatedAt := now }

/-- Modelled from the spec: atomic insert-or-replace of the connection for
a (user, platform) pair, the only creation path for a PlatformConnection;
the back-end store holding it is not in the source tree. All prior records
for the pair are replaced by one fresh active record. -/
def upsert (user : Nat) (platform : String) (tk : TokenPayload)
    (pf : ProviderProfile) (now : Nat)
    (conns : List PlatformConnection) : List PlatformConnection :=
  conns.filter (fun c => !(pairMatch user platform c)) ++
    [mkConnection user platform tk pf now]

/-- Modelled from the spec: deactivation of the connection for a
(user, platform) pair; a successful no-op when no active record exists;
the back-end store holding it is not in the source tree. No record is
created or removed, matching records get is_active set to false. -/
def deactivate (user : Nat) (platform : String)
    (conns : List PlatformConnection) : List PlatformConnection :=
  conns.map (fun c =>
    if pairMatch user platform c then { c with isActive := false } else c)

/-- Whether the user has an active connection for the platform. -/
def hasActive (user : Nat) (platform : String)
    (conns : List PlatformConnection) : Bool :=
  conns.any (fun c => pairMatch user platform c && c.isActive)

/-- Fixed front-end location targeted by every callback redirect, from
TWITTER_FINAL_CHECKLIST.md. -/
def frontendBase : String := "http://localhost:3000/profile"

/-- An HTTP redirect: target base URL plus query parameters. -/
structure Redirect where
  base : String
  params : Obj
deriving Repr, DecidableEq

/-- Modelled from the spec: the Callback Handler state machine (parse,
error short-circuit, parameter check, atomic state consumption, single
exchange attempt, upsert on success, terminal redirect); the back-end
handler is not in the source tree. The redirect parameter names
connection, platform, username and error follow the in-repo consumer
(the Profile component) and TWITTER_FINAL_CHECKLIST.md. The token
exchange client is passed in as a function from the code to its result. -/
def callback (provider : String) (q : Obj)
    (exchange : String → ExchangeResult) (now : Nat) (st : BrokerState) :
    Redirect × BrokerState :=
  match getKey q "error" with
  | some e =>
      ({ base := frontendBase
         params := [("connection", "error"), ("platform", provider),
                    ("error", e)] }, st)
  | none =>
      match getKey q "code", getKey q "state" with
      | some code, some stok =>
          let consumed := consumeState now stok st.states
          match consumed.fst with
          | none =>
              ({ base := frontendBase
                 params := [("connection", "error"), ("platform", provider),
                            ("error", "csrf_mismatch")] },
               { st with states := consumed.snd })
          | some rec =>
              match exchange code with
              | .failure e =>
                  ({ base := frontendBase
                     params := [("connection", "error"),
                                ("platform", provider),
                                ("error", errCode e)] },
                   { st with states := consumed.snd })
              | .success tk pf =>
                  ({ base := frontendBase
                     params := [("connection", "success"),
                                ("platform", provider),
                                ("username", pf.username)] },
                   { states := consumed.snd
                     conns := upsert rec.userId provider tk pf now st.conns })
      | _, _ =>
          ({ base := frontendBase
             params := [("connection", "error"), ("platform", provider),
                        ("error", "malformed_callback")] }, st)

/-- Authorization URL assembled from a platform configuration and a fresh
state token: authorize endpoint, client id, redirect URI, joined scopes,
response_type=code and the state. -/
def buildAuthUrl (cfg : PlatformConfig) (state : String) : String :=
  cfg.authorizeEndpoint ++ "?client_id=" ++ cfg.clientId ++
    "&redirect_uri=" ++ cfg.redirectUri ++
    "&scope=" ++ String.intercalate cfg.scopeJoiner cfg.scopes ++
    "&response_type=code&state=" ++ state

/-- Response of the connect endpoint: not-found for an unknown provider,
otherwise a JSON body. -/
inductive ConnectResponse where
  | notFound
  | ok (body : Obj)
deriving Repr, DecidableEq

/-- Modelled from the spec: the Connection Initiator behind the connect
endpoint (registry lookup, already-connected short-circuit, state
creation, authorization URL assembly); the back-end handler is not in the
source tree. The JSON field names auth_url, state and status follow the
in-repo evidence (the server-log analysis and the SocialMediaConnect
component). The fresh random state token is passed in as newToken. -/
def connect (user : Nat) (provider : String) (newToken : String)
    (now ttl : Nat) (st : BrokerState) : ConnectResponse × BrokerState :=
  match registry provider with
  | none => (.notFound, st)
  | some cfg =>
      if hasActive user provider st.conns then
        (.ok [("status", "connected")], st)
      else
        let rec0 : OAuthState :=
          { token := newToken, userId := user, provider := provider
            createdAt := now, expiresAt := now + ttl }
        (.ok [("auth_url", buildAuthUrl cfg newToken), ("state", newToken)],
         { st with states := rec0 :: st.states })

/-- Serialization of one connection record in the connections listing,
with the field names the Profile component reads: platform,
platform_username, created_at. -/
def connectionEntry (c : PlatformConnection) : Obj :=
  [("platform", c.platform), ("platform_username", c.platformUsername),
   ("created_at", toString c.createdAt)]

/-- Modelled from the spec: the connections listing endpoint returning the
active connections of the caller in store order; the back-end handler is
not in the source tree. Field names follow the in-repo consumer
(fetchSocialConnections in the Profile component). -/
def connectionsResponse (user : Nat) (st : BrokerState) : List Obj :=
  (st.conns.filter (fun c => c.userId == user && c.isActive)).map
    connectionEntry

/-
Front-end embeddings, translated from
src/frontend/src/pages/SocialMediaConnect.tsx, which bundles the
SocialMediaConnect component and the Profile component.
-/

/-- JavaScript truthiness of a string-or-null value: null and the empty
string are falsy. -/
def jsTruthy : Option String → Bool
  | none => false
  | some s => !(s == "")

/-- The JavaScript expression v or-else d over a string-or-null value:
the default is used when v is null or the empty string. -/
def jsOrDefault (v : Option String) (d : String) : String :=
  match v with
  | none => d
  | some s => if s == "" then d else s

/-- Interpolation of a possibly-undefined route parameter into a template
literal: undefined prints as the text undefined. -/
def jsShowParam : Option String → String
  | none => "undefined"
  | some s => s

/-- Interpolation of a possibly-null query parameter into a template
literal: null prints as the text null. -/
def jsShowQuery : Option String → String
  | none => "null"
  | some s => s

/-- Per-platform configuration of the SocialMediaConnect page: display
name, API endpoint and scope list, from the platformConfigs record of the
component (icon, color, description and step text omitted as pure UI
data). -/
structure FrontPlatformConfig where
  name : String
  apiEndpoint : String
  scopes : List String
deriving Repr, DecidableEq

/-- The platformConfigs record of SocialMediaConnect.tsx as an ordered
table from key to configuration. -/
def platformConfigTable : List (String × FrontPlatformConfig) :=
  [ ("twitter",
     { name := "Twitter", apiEndpoint := "/auth/twitter"
       scopes := ["tweet.read", "tweet.write", "users.read"] }),
    ("instagram",
     { name := "Instagram", apiEndpoint := "/auth/instagram"
       scopes := ["instagram_basic", "instagram_content_publish"] }),
    ("facebook",
     { name := "Facebook", apiEndpoint := "/auth/facebook"
       scopes := ["pages_manage_posts", "pages_read_engagement"] }),
    ("linkedin",
     { name := "LinkedIn", apiEndpoint := "/auth/linkedin"
       scopes := ["r_liteprofile", "w_member_social"] }),
    ("email",
     { name := "Email", apiEndpoint := "/auth/email"
       scopes := ["send", "compose"] }) ]

/-- Key lookup in the platformConfigs record. -/
def platformConfigLookup (k : String) : Option FrontPlatformConfig :=
  platformConfigTable.lookup k

/-- What the SocialMediaConnect component renders: the Platform Not Found
screen, or the connect page for a resolved configuration together with the
backend URL its connect button fetches. -/
inductive ConnectPage where
  | notFound
  | page (cfg : FrontPlatformConfig) (connectUrl : String)
deriving Repr, DecidableEq

/-- The SocialMediaConnect component as a function of the platform route
parameter: the configuration is platformConfigs of (platform or-else
twitter); a missing configuration renders the Platform Not Found screen,
otherwise the page whose connect button fetches the oauth connect
endpoint for the raw route parameter. -/
def socialMediaConnect (param : Option String) : ConnectPage :=
  match platformConfigLookup (jsOrDefault param "twitter") with
  | none => .notFound
  | some cfg =>
      .page cfg
        ("http://localhost:8000/oauth/" ++ jsShowParam param ++ "/connect")

/-- The backend connect request a rendered page can issue: none on the
Platform Not Found screen, which has no connect button. -/
def backendRequestOf : ConnectPage → Option String
  | .notFound => none
  | .page _ url => some url

/-- One entry of the socialConnections state of the Profile component. -/
structure SMConnection where
  platform : String
  connected : Bool
  username : Option String
deriving Repr, DecidableEq

/-- Initial socialConnections state of the Profile component. -/
def initialConnections : List SMConnection :=
  [ { platform := "Twitter", connected := false, username := none },
    { platform := "Instagram", connected := false, username := none },
    { platform := "Facebook", connected := false, username := none },
    { platform := "LinkedIn", connected := false, username := none },
    { platform := "Email", connected := false, username := none } ]

/-- Kind of a toast notification. -/
inductive ToastKind where
  | success
  | error
deriving Repr, DecidableEq

/-- A toast notification shown by the Profile component. -/
structure Toast where
  kind : ToastKind
  message : String
deriving Repr, DecidableEq

/-- The handleOAuthCallback function of the Profile component, as a
function of the four query parameters it reads (connection, platform,
username, error) and the current socialConnections state, returning the
toast it shows (if any) and the updated state. Translated from the
TypeScript source: on connection=success with a truthy platform, the
display username is the username parameter or-else user_ followed by the
platform, the toast reports it and every entry whose platform matches
case-insensitively is marked connected with that username. -/
def handleOAuthCallback (connection platform username err : Option String)
    (conns : List SMConnection) : Option Toast × List SMConnection :=
  if connection == some "success" && jsTruthy platform then
    let p := jsShowQuery platform
    let displayUsername := jsOrDefault username ("user_" ++ p)
    (some { kind := .success
            message := "Successfully connected to " ++ p ++ " as " ++
              displayUsername ++ "!" },
     conns.map (fun c =>
       if c.platform.toLower == p.toLower then
         { c with connected := true, username := some displayUsername }
       else c))
  else if connection == some "error" && jsTruthy err then
    (some { kind := .error
            message := "Failed to connect to " ++ jsShowQuery platform ++
              ": " ++ jsShowQuery err },
     conns)
  else
    (none, conns)

/-
Concrete values used by witnesses and counterexamples.
-/

/-- Sample token payload returned by a stubbed successful exchange. -/
def demoTokens : TokenPayload :=
  { accessToken := "at", refreshToken := some "rt", expiresAt := some 7200 }

/-- Sample provider profile returned by a stubbed successful exchange. -/
def demoProfile : ProviderProfile :=
  { id := "42", username := "alice" }

/-- Stubbed exchange that always succeeds. -/
def demoExchange : String → ExchangeResult :=
  fun _ => .success demoTokens demoProfile

/-- Stubbed exchange that always fails with a client-authentication
failure. -/
def demoFailExchange : String → ExchangeResult :=
  fun _ => .failure .configurationError

/-- Sample unconsumed state record for user 1 and twitter, TTL 600. -/
def demoState1 : OAuthState :=
  { token := "S1", userId := 1, provider := "twitter"
    createdAt := 0, expiresAt := 600 }

/-- Broker storage holding just the sample state record. -/
def demoBroker : BrokerState :=
  { states := [demoState1], conns := [] }

/-- Empty broker storage. -/
def emptyBroker : BrokerState :=
  { states := [], conns := [] }

/-- Sample active connection for user 1 and twitter. -/
def demoConn : PlatformConnection :=
  mkConnection 1 "twitter" demoTokens demoProfile 5

/-- Broker storage holding just the sample connection. -/
def demoConnBroker : BrokerState :=
  { states := [], conns := [demoConn] }

/-- Keys of a connect response body, in order; empty for not-found. -/
def connectBodyKeys : ConnectResponse → List String
  | .notFound => []
  | .ok body => body.map Prod.fst

/-
Helper lemmas shared by the claim theorems.
-/

/-- After a consumption attempt for a token, no record with that token
remains in the store. -/
lemma consumeState_snd_find_none (now : Nat) (S : String)
    (states : List OAuthState) :
    ((consumeState now S states).snd).find? (fun r => r.token == S) = none := by
  unfold consumeState
  cases h : states.find? (fun s => s.token == S) with
  | none => simpa using h
  | some s =>
      simp only [h]
      rw [List.find?_eq_none]
      intro x hx
      have hxmem := List.mem_filter.mp hx
      simpa using hxmem.2

/-- A callback that reaches consumption leaves the post-consumption state
store, whatever the exchange outcome. -/
lemma callback_states_after_consume (provider : String) (q : Obj)
    (ex : String → ExchangeResult) (now : Nat) (st : BrokerState)
    (S c : String)
    (hqe : getKey q "error" = none)
    (hqc : getKey q "code" = some c)
    (hqs : getKey q "state" = some S) :
    ((callback provider q ex now st).snd).states =
      (consumeState now S st.states).snd := by
  unfold callback
  simp only [hqe, hqc, hqs]
  cases hf : (consumeState now S st.states).fst with
  | none => simp [hf]
  | some rec =>
      cases hx : ex c with
      | failure e => simp [hf, hx]
      | success tk pf => simp [hf, hx]

/-- A callback whose query carries code and state but whose consumption
attempt finds nothing valid terminates with the csrf_mismatch redirect. -/
lemma callback_csrf (provider : String) (q : Obj)
    (ex : String → ExchangeResult) (now : Nat) (st : BrokerState)
    (S c : String)
    (hqe : getKey q "error" = none)
    (hqc : getKey q "code" = some c)
    (hqs : getKey q "state" = some S)
    (hnone : (consumeState now S st.states).fst = none) :
    callback provider q ex now st =
      ({ base := frontendBase
         params := [("connection", "error"), ("platform", provider),
                    ("error", "csrf_mismatch")] },
       { st with states := (consumeState now S st.states).snd }) := by
  unfold callback
  rw [hqe, hqc, hqs]
  simp only [hnone]

/-- The single fresh record is the only record an upsert leaves active for
its pair. -/
lemma filter_activePair_upsert (user : Nat) (platform : String)
    (tk : TokenPayload) (pf : ProviderProfile) (now : Nat)
    (conns : List PlatformConnection) :
    (upsert user platform tk pf now conns).filter
        (fun c => pairMatch user platform c && c.isActive) =
      [mkConnection user platform tk pf now] := by
  unfold upsert
  rw [List.filter_append]
  have h1 : (conns.filter (fun c => !(pairMatch user platform c))).filter
      (fun c => pairMatch user platform c && c.isActive) = [] := by
    rw [List.filter_eq_nil_iff]
    intro a ha
    have h2 := (List.mem_filter.mp ha).2
    simp only [Bool.not_eq_true'] at h2
    simp [h2]
  rw [h1]
  simp [mkConnection, pairMatch]

/-- C1: once a callback invocation has successfully consumed a state token
S, any subsequent callback invocation presenting S, even with a valid
code, finds no matching OAuthState record and terminates with a
csrf-mismatch redirect; a second consumption of S never succeeds. -/
theorem c1_consumed_state_never_reused
    (provider provider2 : String) (q q2 : Obj)
    (ex ex2 : String → ExchangeResult) (now now2 : Nat)
    (st : BrokerState) (S c c2 : String)
    (hqe : getKey q "error" = none)
    (hqc : getKey q "code" = some c)
    (hqs : getKey q "state" = some S)
    (hconsumed : ((consumeState now S st.states).fst).isSome = true)
    (hq2e : getKey q2 "error" = none)
    (hq2c : getKey q2 "code" = some c2)
    (hq2s : getKey q2 "state" = some S) :
    getKey ((callback provider2 q2 ex2 now2
        (callback provider q ex now st).snd).fst).params "connection" =
      some "error" ∧
    getKey ((callback provider2 q2 ex2 now2
        (callback provider q ex now st).snd).fst).params "error" =
      some "csrf_mismatch" ∧
    (consumeState now2 S ((callback provider q ex now st).snd).states).fst =
      none := by
  have hst1 : ((callback provider q ex now st).snd).states =
      (consumeState now S st.states).snd :=
    callback_states_after_consume provider q ex now st S c hqe hqc hqs
  have hfind : (((callback provider q ex now st).snd).states).find?
      (fun r => r.token == S) = none := by
    rw [hst1]
    exact consumeState_snd_find_none now S st.states
  have hcons2 : (consumeState now2 S
      ((callback provider q ex now st).snd).states).fst = none := by
    unfold consumeState
    rw [hfind]
  have hc2 := callback_csrf provider2 q2 ex2 now2
    ((callback provider q ex now st).snd) S c2 hq2e hq2c hq2s hcons2
  rw [hc2]
  exact ⟨rfl, rfl, hcons2⟩

/-- C1 witness: a concrete double-fired callback for token S1; the first
invocation consumes S1 and the second terminates with csrf_mismatch. -/
theorem c1_witness :
    getKey ((callback "twitter" [("code", "c2"), ("state", "S1")]
        demoExchange 6
        (callback "twitter" [("code", "abc"), ("state", "S1")]
          demoExchange 5 demoBroker).snd).fst).params "connection" =
      some "error" ∧
    getKey ((callback "twitter" [("code", "c2"), ("state", "S1")]
        demoExchange 6
        (callback "twitter" [("code", "abc"), ("state", "S1")]
          demoExchange 5 demoBroker).snd).fst).params "error" =
      some "csrf_mismatch" ∧
    (consumeState 6 "S1"
        ((callback "twitter" [("code", "abc"), ("state", "S1")]
          demoExchange 5 demoBroker).snd).states).fst = none :=
  c1_consumed_state_never_reused "twitter" "twitter"
    [("code", "abc"), ("state", "S1")] [("code", "c2"), ("state", "S1")]
    demoExchange demoExchange 5 6 demoBroker "S1" "abc" "c2"
    (by decide) (by decide) (by decide) (by decide)
    (by decide) (by decide) (by decide)

/-- C2: after an upsert for a pair, exactly one active connection exists
for that pair, and after two upserts in sequence the one active connection
carries the values of the second call. -/
theorem c2_upsert_at_most_one_active
    (user : Nat) (platform : String) (tk1 tk2 : TokenPayload)
    (pf1 pf2 : ProviderProfile) (t1 t2 : Nat)
    (conns : List PlatformConnection) :
    (∀ tk pf t, ((upsert user platform tk pf t conns).filter
        (fun c => pairMatch user platform c && c.isActive)).length = 1) ∧
    (upsert user platform tk2 pf2 t2
        (upsert user platform tk1 pf1 t1 conns)).filter
        (fun c => pairMatch user platform c && c.isActive) =
      [mkConnection user platform tk2 pf2 t2] := by
  constructor
  · intro tk pf t
    rw [filter_activePair_upsert]
    rfl
  · rw [filter_activePair_upsert]

/-- C3: when every exchange attempt the callback could make returns a
non-success result, the callback leaves the connection store untouched. -/
theorem c3_failed_exchange_writes_nothing
    (provider : String) (q : Obj) (ex : String → ExchangeResult)
    (now : Nat) (st : BrokerState)
    (hex : ∀ code, (ex code).isFailure = true) :
    ((callback provider q ex now st).snd).conns = st.conns := by
  unfold callback
  cases he : getKey q "error" with
  | some e => simp
  | none =>
      cases hc : getKey q "code" with
      | none => simp
      | some code =>
          cases hs : getKey q "state" with
          | none => simp
          | some S =>
              simp only
              cases hf : (consumeState now S st.states).fst with
              | none => simp [hf]
              | some rec =>
                  cases hx : ex code with
                  | failure e => simp [hf, hx]
                  | success tk pf =>
                      have := hex code
                      rw [hx] at this
                      simp [ExchangeResult.isFailure] at this

/-- C3 witness: a concrete callback against a stubbed exchange returning a
client-authentication failure leaves the empty connection store empty. -/
theorem c3_witness :
    ((callback "twitter" [("code", "abc"), ("state", "S1")]
        demoFailExchange 5 demoBroker).snd).conns = demoBroker.conns :=
  c3_failed_exchange_writes_nothing "twitter"
    [("code", "abc"), ("state", "S1")] demoFailExchange 5 demoBroker
    (fun _ => rfl)

/-- C7: a state token whose TTL has elapsed fails with a csrf_mismatch
redirect when presented in a callback, even when well-formed and never
previously consumed, and no connection is written. -/
theorem c7_expired_state_fails_csrf
    (provider : String) (q : Obj) (ex : String → ExchangeResult)
    (now : Nat) (st : BrokerState) (S c : String) (rec : OAuthState)
    (hqe : getKey q "error" = none)
    (hqc : getKey q "code" = some c)
    (hqs : getKey q "state" = some S)
    (hfind : st.states.find? (fun s => s.token == S) = some rec)
    (hexp : rec.expiresAt ≤ now) :
    getKey ((callback provider q ex now st).fst).params "connection" =
      some "error" ∧
    getKey ((callback provider q ex now st).fst).params "error" =
      some "csrf_mismatch" ∧
    ((callback provider q ex now st).snd).conns = st.conns := by
  have hnone : (consumeState now S st.states).fst = none := by
    unfold consumeState
    rw [hfind]
    simp only
    rw [if_neg (by omega)]
  rw [callback_csrf provider q ex now st S c hqe hqc hqs hnone]
  exact ⟨rfl, rfl, rfl⟩

/-- C7 witness: the sample state record with TTL 600 presented at time
600 fails with csrf_mismatch and writes no connection. -/
theorem c7_witness :
    getKey ((callback "twitter" [("code", "abc"), ("state", "S1")]
        demoExchange 600 demoBroker).fst).params "connection" =
      some "error" ∧
    getKey ((callback "twitter" [("code", "abc"), ("state", "S1")]
        demoExchange 600 demoBroker).fst).params "error" =
      some "csrf_mismatch" ∧
    ((callback "twitter" [("code", "abc"), ("state", "S1")]
        demoExchange 600 demoBroker).snd).conns = demoBroker.conns :=
  c7_expired_state_fails_csrf "twitter" [("code", "abc"), ("state", "S1")]
    demoExchange 600 demoBroker "S1" "abc" demoState1
    (by decide) (by decide) (by decide) (by decide) (by decide)

/-- C8: deactivation never creates a record, is idempotent, and on a pair
with no existing active record it returns the store unchanged. -/
theorem c8_deactivate_idempotent_noop
    (user : Nat) (platform : String) (conns : List PlatformConnection) :
    (deactivate user platform conns).length = conns.length ∧
    deactivate user platform (deactivate user platform conns) =
      deactivate user platform conns ∧
    ((∀ c ∈ conns, pairMatch user platform c = true → c.isActive = false) →
      deactivate user platform conns = conns) := by
  refine ⟨?_, ?_, ?_⟩
  · exact List.length_map conns _
  · unfold deactivate
    rw [List.map_map]
    apply List.map_congr_left
    intro a _
    by_cases h : pairMatch user platform a = true
    · have h2 : pairMatch user platform { a with isActive := false } = true := h
      simp [Function.comp, h, h2]
    · have h1 : pairMatch user platform a = false := by
        cases hb : pairMatch user platform a
        · rfl
        · exact absurd hb h
      simp [Function.comp, h1]
  · intro hall
    unfold deactivate
    have hid : ∀ c ∈ conns,
        (if pairMatch user platform c then { c with isActive := false }
         else c) = c := by
      intro c hcmem
      by_cases h : pairMatch user platform c = true
      · have hin := hall c hcmem h
        rw [if_pos h]
        cases c
        simp only at hin
        simp [hin]
      · have h1 : pairMatch user platform c = false := by
          cases hb : pairMatch user platform c
          · rfl
          · exact absurd hb h
        simp [h1]
    calc conns.map (fun c =>
          if pairMatch user platform c then { c with isActive := false }
          else c)
        = conns.map id := List.map_congr_left hid
      _ = conns := List.map_id conns

/-- C8 witness: deactivating twitter for user 1 over a store holding only
an already-inactive twitter record and over the record of another user
changes nothing, creates nothing, and deactivating twice equals
deactivating once. -/
theorem c8_witness :
    (deactivate 1 "twitter" (deactivate 1 "twitter" [demoConn])).length =
      (deactivate 1 "twitter" [demoConn]).length ∧
    deactivate 1 "twitter"
        (deactivate 1 "twitter" (deactivate 1 "twitter" [demoConn])) =
      deactivate 1 "twitter" (deactivate 1 "twitter" [demoConn]) ∧
    deactivate 1 "twitter" (deactivate 1 "twitter" [demoConn]) =
      deactivate 1 "twitter" [demoConn] :=
  ⟨(c8_deactivate_idempotent_noop 1 "twitter"
      (deactivate 1 "twitter" [demoConn])).1,
   (c8_deactivate_idempotent_noop 1 "twitter"
      (deactivate 1 "twitter" [demoConn])).2.1,
   (c8_deactivate_idempotent_noop 1 "twitter"
      (deactivate 1 "twitter" [demoConn])).2.2 (by decide)⟩

/-- C4 counterexample: a concrete successful callback invocation whose
redirect carries the provider under the parameter name platform and has
no parameter named provider at all. -/
theorem c4_counterexample :
    getKey ((callback "twitter" [("code", "abc"), ("state", "S1")]
        demoExchange 5 demoBroker).fst).params "connection" =
      some "success" ∧
    hasKey ((callback "twitter" [("code", "abc"), ("state", "S1")]
        demoExchange 5 demoBroker).fst).params "provider" = false ∧
    getKey ((callback "twitter" [("code", "abc"), ("state", "S1")]
        demoExchange 5 demoBroker).fst).params "platform" =
      some "twitter" := by
  decide

/-- C4 amended: every callback invocation redirects to the fixed front-end
location with query parameters indicating connection success or error, the
provider under the parameter name platform, and either a username or a
coarse error code. -/
theorem c4_callback_redirect_shape (provider : String) (q : Obj)
    (ex : String → ExchangeResult) (now : Nat) (st : BrokerState) :
    ((callback provider q ex now st).fst).base = frontendBase ∧
    (getKey ((callback provider q ex now st).fst).params "connection" =
        some "success" ∨
     getKey ((callback provider q ex now st).fst).params "connection" =
        some "error") ∧
    getKey ((callback provider q ex now st).fst).params "platform" =
      some provider ∧
    (hasKey ((callback provider q ex now st).fst).params "username" = true ∨
     hasKey ((callback provider q ex now st).fst).params "error" = true) := by
  unfold callback
  cases he : getKey q "error" with
  | some e => exact ⟨rfl, Or.inr rfl, rfl, Or.inr rfl⟩
  | none =>
      cases hc : getKey q "code" with
      | none => exact ⟨rfl, Or.inr rfl, rfl, Or.inr rfl⟩
      | some code =>
          cases hs : getKey q "state" with
          | none => exact ⟨rfl, Or.inr rfl, rfl, Or.inr rfl⟩
          | some S =>
              simp only
              cases hf : (consumeState now S st.states).fst with
              | none => exact ⟨rfl, Or.inr rfl, rfl, Or.inr rfl⟩
              | some rec =>
                  cases hx : ex code with
                  | failure e => exact ⟨rfl, Or.inr rfl, rfl, Or.inr rfl⟩
                  | success tk pf =>
                      exact ⟨rfl, Or.inl rfl, rfl, Or.inl rfl⟩

/-- C5 counterexample: a concrete authenticated connect call with no
active connection whose body keys are auth_url and state, not
authorizationUrl. -/
theorem c5_counterexample :
    connectBodyKeys (connect 1 "twitter" "S9" 0 600 emptyBroker).fst =
      ["auth_url", "state"] := by
  decide

/-- C5 amended: a connect call for a provider in the registry answers with
a body of shape status connected when an active connection exists, leaving
the store untouched, and otherwise with a body carrying auth_url and
state; an unknown provider yields not-found. -/
theorem c5_connect_response_shape (user : Nat) (provider : String)
    (tok : String) (now ttl : Nat) (st : BrokerState) :
    (registry provider = none →
      connect user provider tok now ttl st = (.notFound, st)) ∧
    (registry provider ≠ none →
      (hasActive user provider st.conns = true →
        connect user provider tok now ttl st =
          (.ok [("status", "connected")], st)) ∧
      (hasActive user provider st.conns = false →
        connectBodyKeys (connect user provider tok now ttl st).fst =
          ["auth_url", "state"] ∧
        getKey
          (match (connect user provider tok now ttl st).fst with
            | .notFound => []
            | .ok body => body) "state" = some tok)) := by
  constructor
  · intro hr
    unfold connect
    rw [hr]
  · intro hr
    cases hcfg : registry provider with
    | none => exact absurd hcfg hr
    | some cfg =>
        constructor
        · intro hact
          unfold connect
          rw [hcfg]
          simp only [hact, if_pos]
        · intro hact
          unfold connect
          rw [hcfg]
          simp only [hact, Bool.false_eq_true, if_false]
          exact ⟨rfl, rfl⟩

/-- C5 witness: user 1 connecting twitter over an empty store gets a body
with keys auth_url and state carrying the fresh token S9, and the
connected short-circuit plus unknown-provider cases at concrete inputs. -/
theorem c5_witness :
    connect 1 "github" "S9" 0 600 emptyBroker = (.notFound, emptyBroker) ∧
    connect 1 "twitter" "S9" 0 600 demoConnBroker =
      (.ok [("status", "connected")], demoConnBroker) ∧
    connectBodyKeys (connect 1 "twitter" "S9" 0 600 emptyBroker).fst =
      ["auth_url", "state"] :=
  ⟨(c5_connect_response_shape 1 "github" "S9" 0 600 emptyBroker).1
      (by decide),
   ((c5_connect_response_shape 1 "twitter" "S9" 0 600 demoConnBroker).2
      (by decide)).1 (by decide),
   (((c5_connect_response_shape 1 "twitter" "S9" 0 600 emptyBroker).2
      (by decide)).2 (by decide)).1⟩

/-- C6 counterexample: a concrete connections listing whose single record
has the keys platform, platform_username and created_at, not provider,
displayName and connectedAt. -/
theorem c6_counterexample :
    (connectionsResponse 1 demoConnBroker).map (fun o => o.map Prod.fst) =
      [["platform", "platform_username", "created_at"]] := by
  decide

/-- C6 amended: the connections listing for a caller consists of exactly
the serializations, with keys platform, platform_username and created_at,
of the active connections of the caller, in store order. -/
theorem c6_connections_list_exact (user : Nat) (st : BrokerState) :
    (∀ o ∈ connectionsResponse user st, ∃ c,
      c ∈ st.conns ∧ c.userId = user ∧ c.isActive = true ∧
        o = connectionEntry c) ∧
    (∀ c ∈ st.conns, c.userId = user → c.isActive = true →
      connectionEntry c ∈ connectionsResponse user st) ∧
    (connectionsResponse user st).length =
      (st.conns.filter (fun c => c.userId == user && c.isActive)).length := by
  refine ⟨?_, ?_, ?_⟩
  · intro o ho
    unfold connectionsResponse at ho
    rw [List.mem_map] at ho
    obtain ⟨c, hc, rfl⟩ := ho
    have hc2 := List.mem_filter.mp hc
    refine ⟨c, hc2.1, ?_, ?_, rfl⟩
    · have := hc2.2
      simp only [Bool.and_eq_true, beq_iff_eq] at this
      exact this.1
    · have := hc2.2
      simp only [Bool.and_eq_true, beq_iff_eq] at this
      exact this.2
  · intro c hc hu ha
    unfold connectionsResponse
    rw [List.mem_map]
    refine ⟨c, ?_, rfl⟩
    rw [List.mem_filter]
    exact ⟨hc, by simp [hu, ha]⟩
  · unfold connectionsResponse
    exact List.length_map _ _

/-- C6 witness: the serialization of the sample active connection of user
1 appears in the listing for user 1 over the sample store. -/
theorem c6_witness :
    connectionEntry demoConn ∈ connectionsResponse 1 demoConnBroker :=
  (c6_connections_list_exact 1 demoConnBroker).2.1 demoConn
    (by decide) (by decide) (by decide)

/-- C9: a success redirect carrying a platform parameter but no username
parameter makes the Profile page report and store the placeholder
username user_ followed by the platform for every matching connection
entry. -/
theorem c9_placeholder_username (p : String) (e : Option String)
    (conns : List SMConnection) (hp : p ≠ "") :
    (handleOAuthCallback (some "success") (some p) none e conns).fst =
      some { kind := .success
             message := "Successfully connected to " ++ p ++ " as " ++
               ("user_" ++ p) ++ "!" } ∧
    ∀ c ∈ (handleOAuthCallback (some "success") (some p) none e conns).snd,
      c.platform.toLower = p.toLower →
        c.connected = true ∧ c.username = some ("user_" ++ p) := by
  have ht : jsTruthy (some p) = true := by
    simp [jsTruthy, hp]
  constructor
  · simp [handleOAuthCallback, ht, jsShowQuery, jsOrDefault]
  · intro c hc hmatch
    simp only [handleOAuthCallback, ht, jsShowQuery, jsOrDefault] at hc
    simp only [beq_self_eq_true, Bool.true_and, if_true, if_pos] at hc
    rw [List.mem_map] at hc
    obtain ⟨a, _, rfl⟩ := hc
    by_cases hm : a.platform.toLower = p.toLower
    · have hb : (a.platform.toLower == p.toLower) = true := by simp [hm]
      simp [hb]
    · have hb : (a.platform.toLower == p.toLower) = false := by simp [hm]
      simp [hb] at hmatch
      exact absurd hmatch hm

/-- C9 witness: a success redirect for twitter with no username updates
the Twitter entry of the initial connection state to the placeholder
user_twitter. -/
theorem c9_witness :
    (handleOAuthCallback (some "success") (some "twitter") none none
        initialConnections).fst =
      some { kind := .success
             message := "Successfully connected to " ++ "twitter" ++
               " as " ++ ("user_" ++ "twitter") ++ "!" } :=
  (c9_placeholder_username "twitter" none initialConnections
    (by decide)).1

/-- C10: the SocialMediaConnect page resolves a missing route parameter to
the Twitter configuration, renders the Platform Not Found screen with no
backend connect request for a present parameter outside the five known
keys, and uses exactly the matching configuration for each known key. -/
theorem c10_route_param_resolution (p : String) (hne : p ≠ "")
    (hout : p ∉ ["twitter", "instagram", "facebook", "linkedin", "email"]) :
    socialMediaConnect none =
      .page { name := "Twitter", apiEndpoint := "/auth/twitter"
              scopes := ["tweet.read", "tweet.write", "users.read"] }
        "http://localhost:8000/oauth/undefined/connect" ∧
    socialMediaConnect (some p) = .notFound ∧
    backendRequestOf (socialMediaConnect (some p)) = none ∧
    (∀ k cfg, (k, cfg) ∈ platformConfigTable →
      socialMediaConnect (some k) =
        .page cfg ("http://localhost:8000/oauth/" ++ k ++ "/connect")) := by
  have hlook : platformConfigLookup p = none := by
    simp only [List.mem_cons, List.not_mem_nil, or_false, not_or] at hout
    obtain ⟨h1, h2, h3, h4, h5⟩ := hout
    have b1 : (p == "twitter") = false := by simp [h1]
    have b2 : (p == "instagram") = false := by simp [h2]
    have b3 : (p == "facebook") = false := by simp [h3]
    have b4 : (p == "linkedin") = false := by simp [h4]
    have b5 : (p == "email") = false := by simp [h5]
    simp [platformConfigLookup, platformConfigTable, List.lookup,
      b1, b2, b3, b4, b5]
  have hnf : socialMediaConnect (some p) = .notFound := by
    unfold socialMediaConnect
    have : jsOrDefault (some p) "twitter" = p := by
      simp [jsOrDefault, hne]
    rw [this, hlook]
  refine ⟨rfl, hnf, by rw [hnf]; rfl, ?_⟩
  intro k cfg hk
  fin_cases hk <;> rfl

/-- C10 witness: the route parameter github renders the Platform Not
Found screen with no backend connect request, and the linkedin parameter
resolves to the LinkedIn configuration. -/
theorem c10_witness :
    socialMediaConnect (some "github") = .notFound ∧
    backendRequestOf (socialMediaConnect (some "github")) = none ∧
    socialMediaConnect (some "linkedin") =
      .page { name := "LinkedIn", apiEndpoint := "/auth/linkedin"
              scopes := ["r_liteprofile", "w_member_social"] }
        ("http://localhost:8000/oauth/" ++ "linkedin" ++ "/connect") :=
  ⟨(c10_route_param_resolution "github" (by decide) (by decide)).2.1,
   (c10_route_param_resolution "github" (by decide) (by decide)).2.2.1,
   (c10_route_param_resolution "github" (by decide) (by decide)).2.2.2
     "linkedin"
     { name := "LinkedIn", apiEndpoint := "/auth/linkedin"
       scopes := ["r_liteprofile", "w_member_social"] }
     (by decide)⟩

end OAuthApp
